import Mathlib

/-!
Verification of the OurBlock status dashboard
(src/deploy/status-dashboard/server.py) against its specification.

The Python module is embedded shallowly: each probe becomes a pure Lean
function over an explicit outcome type describing what the external world
(HTTP responses, the filesystem walk, the container runtime) did, and the
background update loop becomes a state-transition function on the cache
record, exposed as the list of intermediate states its per-field writes
produce.  Machine floats for times and megabyte totals are modelled with
Nat and Rat respectively.
-/

namespace OurBlock

/-- Outcome of one bounded-timeout HTTP request made with the requests
library: either the call raised (timeout, connection refused, ...) or it
returned a response with a status code.  A non-2xx status does not raise. -/
inductive ProbeOutcome
  | exn
  | status (code : Nat)
deriving DecidableEq, Repr

/-- Lines 116-125 of server.py: attempt 1 requests the /health path and on
any exception attempt 2 requests the service root.  Result is the value
stored in the online field, paired with whether attempt 2 was issued. -/
def checkHealth (attempt1 attempt2 : ProbeOutcome) : Bool × Bool :=
  match attempt1 with
  | .status c => (c == 200, false)
  | .exn =>
    match attempt2 with
    | .status c => (c == 200 || c == 404, true)
    | .exn => (false, true)

/-- One event of the os.walk enumeration under DATA_DIR: a regular file of
a given size, present or vanished at the os.path.exists check, or an
exception escaping the walk (missing root, permission denied, I/O error). -/
inductive WalkEvent
  | file (size : Nat) (present : Bool)
  | enumError
deriving DecidableEq, Repr

/-- Result of running the walk loop of get_storage_used: either it ran to
completion, or an exception interrupted it with a partial total. -/
inductive WalkOutcome
  | ok (total : Nat)
  | interrupted (acc : Nat)
deriving DecidableEq, Repr

/-- The walk loop of get_storage_used (lines 58-62): files that are absent
at the exists check are skipped, an enumeration error stops the loop with
whatever total_size has accumulated. -/
def walkAux (acc : Nat) : List WalkEvent → WalkOutcome
  | [] => .ok acc
  | .file s true :: rest => walkAux (acc + s) rest
  | .file _ false :: rest => walkAux acc rest
  | .enumError :: _ => .interrupted acc

/-- Lines 54-65 of server.py: sum the sizes of regular files under the
data root; an exception is swallowed (the except: pass), leaving the
partial byte total, and the result is converted to megabytes. -/
def get_storage_used (events : List WalkEvent) : ℚ :=
  let total_size : Nat :=
    match walkAux 0 events with
    | .ok t => t
    | .interrupted acc => acc
  (total_size : ℚ) / (1024 * 1024)

/-- Byte total of the present files of an error-free event list; used to
state what the walk accumulates. -/
def presentSum : List WalkEvent → Nat
  | [] => 0
  | .file s true :: rest => s + presentSum rest
  | _ :: rest => presentSum rest

/-- Lines 41-52 of server.py: render a seconds count as days, hours and
minutes, dropping the day part when zero and the hour part when both the
day and hour parts are zero. -/
def format_uptime (seconds : Nat) : String :=
  let days := seconds / 86400
  let hours := (seconds % 86400) / 3600
  let minutes := (seconds % 3600) / 60
  if days > 0 then
    toString days ++ "d " ++ toString hours ++ "h " ++ toString minutes ++ "m"
  else if hours > 0 then
    toString hours ++ "h " ++ toString minutes ++ "m"
  else
    toString minutes ++ "m"

/-- A parsed JSON object body, abstracted as an association list from the
field names that matter here to integer values. -/
abbrev JsonObj := List (String × Nat)

/-- Outcome of the admin-interface POST of get_conductor_stats: an
exception, or a response with a status code and a body.  A body of none
stands for a body on which response.json() raises. -/
inductive FetchOutcome
  | exn
  | status (code : Nat) (body : Option JsonObj)
deriving DecidableEq, Repr

/-- Lines 94-107 of server.py: on a 200 response return the parsed JSON
body; every exception (network error or a json() failure) and every
non-200 status fall through to returning None. -/
def get_conductor_stats (o : FetchOutcome) : Option JsonObj :=
  match o with
  | .exn => none
  | .status code body =>
    if code == 200 then
      match body with
      | some obj => some obj
      | none => none
    else none

/-- Python dict.get(key, default). -/
def dictGet (obj : JsonObj) (key : String) (dflt : Nat) : Nat :=
  match obj.lookup key with
  | some v => v
  | none => dflt

/-- Lines 137-139 of server.py: `if conductor_stats:` is Python truthiness,
so both None and an empty dict leave the previous peer count in place,
while any non-empty dict overwrites it with dict.get of the peers field,
defaulting to 0. -/
def updatePeers (prev : Nat) (res : Option JsonObj) : Nat :=
  match res with
  | some obj => if obj.isEmpty then prev else dictGet obj "peers" 0
  | none => prev

/-- What the container runtime does for a single container lookup:
client.containers.get returns a container with a status string, raises
NotFound, or raises some other exception. -/
inductive ContainerQuery
  | found (status : String)
  | notFound
  | queryErr
deriving DecidableEq, Repr

/-- The container runtime as seen by get_container_status: whether
docker.from_env() succeeds, and what each by-name lookup does. -/
structure DockerRuntime where
  fromEnvOk : Bool
  query : String → ContainerQuery

/-- Lines 67-92 of server.py: in degraded mode (the docker import failed at
process start) a fixed map is returned without touching the runtime; with
the runtime, each of the three fixed names is queried independently. -/
def get_container_status (dockerAvailable : Bool) (rt : DockerRuntime) :
    List (String × String) :=
  if !dockerAvailable then
    [("conductor", "docker unavailable"), ("lair", "docker unavailable"),
     ("ui", "docker unavailable")]
  else if !rt.fromEnvOk then
    [("conductor", "unknown"), ("lair", "unknown"), ("ui", "unknown")]
  else
    [("conductor", "ourblock-conductor"), ("lair", "ourblock-lair"),
     ("ui", "ourblock-ui")].map fun p =>
      (p.1,
        match rt.query p.2 with
        | .found s => s
        | .notFound => "not found"
        | .queryErr => "unknown")

/-- The shared stats_cache dict (lines 30-39 of server.py).  Timestamps are
modelled as Nat and the megabyte total as Rat. -/
structure StatsCache where
  online : Bool
  uptime : Nat
  start_time : Nat
  vouches_processed : Nat
  storage_used_mb : ℚ
  peers_connected : Nat
  containers : List (String × String)
  last_update : Option Nat
deriving DecidableEq, Repr

/-- The initial value of stats_cache: safe defaults before the first cycle,
with start_time captured at process start. -/
def stats_cache_init (start_time : Nat) : StatsCache :=
  { online := false
    uptime := 0
    start_time := start_time
    vouches_processed := 0
    storage_used_mb := 0
    peers_connected := 0
    containers := []
    last_update := none }

/-- Everything the outside world feeds one iteration of the update_stats
loop: the two health-request outcomes, the current clock, the filesystem
walk, the container runtime, the admin fetch and the cycle timestamp. -/
structure CycleInput where
  attempt1 : ProbeOutcome
  attempt2 : ProbeOutcome
  now : Nat
  walkEvents : List WalkEvent
  dockerAvailable : Bool
  runtime : DockerRuntime
  conductorFetch : FetchOutcome
  timestamp : Nat

/-- One iteration of the update_stats loop body (lines 113-147 of
server.py) as the sequence of cache states its in-place field writes
produce, in program order: online, uptime, storage_used_mb, containers,
peers_connected, last_update.  Each listed state is visible to a
concurrently running request handler. -/
def update_stats_trace (inp : CycleInput) (s0 : StatsCache) : List StatsCache :=
  let s1 := { s0 with online := (checkHealth inp.attempt1 inp.attempt2).1 }
  let s2 := { s1 with uptime := inp.now - s1.start_time }
  let s3 := { s2 with storage_used_mb := get_storage_used inp.walkEvents }
  let s4 := { s3 with containers := get_container_status inp.dockerAvailable inp.runtime }
  let s5 := { s4 with peers_connected := updatePeers s4.peers_connected (get_conductor_stats inp.conductorFetch) }
  let s6 := { s5 with last_update := some inp.timestamp }
  [s1, s2, s3, s4, s5, s6]

/-- The cache state at the end of one update_stats iteration. -/
def update_stats_cycle (inp : CycleInput) (s0 : StatsCache) : StatsCache :=
  (update_stats_trace inp s0).getLastD s0

/-- Cache states the process can ever publish: the initial value, and the
result of any number of update_stats iterations under arbitrary inputs. -/
inductive Reachable (start : Nat) : StatsCache → Prop
  | init : Reachable start (stats_cache_init start)
  | step (inp : CycleInput) {c : StatsCache} :
      Reachable start c → Reachable start (update_stats_cycle inp c)

/-- The JSON document served by /api/status. -/
structure ApiStatus where
  neighborhood_id : String
  online : Bool
  uptime_seconds : Nat
  uptime_formatted : String
  vouches_processed : Nat
  storage_used_mb : ℚ
  peers_connected : Nat
  containers : List (String × String)
  last_update : Option Nat
deriving DecidableEq, Repr

/-- Python round(x, 2).  (Floats round half-to-even; the exact tie rule is
immaterial to every claim, so Rat rounding is used.) -/
def round2 (q : ℚ) : ℚ := (round (q * 100) : ℤ) / 100

/-- Lines 158-171 of server.py: the /api/status handler, a pure read of the
current cache. -/
def api_status (neighborhood_id : String) (c : StatsCache) : ApiStatus :=
  { neighborhood_id := neighborhood_id
    online := c.online
    uptime_seconds := c.uptime
    uptime_formatted := format_uptime c.uptime
    vouches_processed := c.vouches_processed
    storage_used_mb := round2 c.storage_used_mb
    peers_connected := c.peers_connected
    containers := c.containers
    last_update := c.last_update }

/-- Lines 181-184 of server.py: the /health handler.  It is given the
current cache state to express that the response does not depend on it. -/
def health (_c : StatsCache) : String × Nat := ("OK", 200)

/-- Helper: an error-free walk returns the accumulator plus the byte total
of the present files. -/
theorem walkAux_no_error (pre : List WalkEvent) :
    ∀ acc : Nat, WalkEvent.enumError ∉ pre →
      walkAux acc pre = WalkOutcome.ok (acc + presentSum pre) := by
  induction pre with
  | nil => intro acc _; simp [walkAux, presentSum]
  | cons e rest ih =>
    intro acc h
    have hrest : WalkEvent.enumError ∉ rest := fun hm => h (List.mem_cons_of_mem _ hm)
    cases e with
    | file s present =>
      cases present with
      | true => simp [walkAux, presentSum, ih (acc + s) hrest, Nat.add_assoc]
      | false => simp [walkAux, presentSum, ih acc hrest]
    | enumError => exact absurd (List.mem_cons_self _ _) h

/-- Helper: a walk whose enumeration raises right after an error-free
portion is interrupted holding the bytes accumulated so far. -/
theorem walkAux_append_error (post : List WalkEvent) :
    ∀ (pre : List WalkEvent) (acc : Nat), WalkEvent.enumError ∉ pre →
      walkAux acc (pre ++ WalkEvent.enumError :: post) =
        WalkOutcome.interrupted (acc + presentSum pre) := by
  intro pre
  induction pre with
  | nil => intro acc _; simp [walkAux, presentSum]
  | cons e rest ih =>
    intro acc h
    have hrest : WalkEvent.enumError ∉ rest := fun hm => h (List.mem_cons_of_mem _ hm)
    cases e with
    | file s present =>
      cases present with
      | true => simp [walkAux, presentSum, ih (acc + s) hrest, Nat.add_assoc]
      | false => simp [walkAux, presentSum, ih acc hrest]
    | enumError => exact absurd (List.mem_cons_self _ _) h

/-- Claim C5 counterexample: for three present files of sizes 1, 2 and 3
bytes, get_storage_used does not return the byte total 6 — the function
divides the byte total by 1024*1024 before returning it. -/
theorem get_storage_used_not_bytes :
    get_storage_used [WalkEvent.file 1 true, WalkEvent.file 2 true,
      WalkEvent.file 3 true] ≠ ((1 : ℚ) + 2 + 3) := by
  simp only [get_storage_used, walkAux]
  norm_num

/-- Claim C5 (amended): for files of sizes a, b, c bytes the scan
accumulates exactly a+b+c bytes and returns that total divided by
1024*1024 (megabytes); an empty root returns 0. -/
theorem get_storage_used_sums_sizes :
    ∀ a b c : Nat,
      get_storage_used [WalkEvent.file a true, WalkEvent.file b true,
        WalkEvent.file c true] = ((a : ℚ) + b + c) / (1024 * 1024) ∧
      get_storage_used [] = 0 := by
  intro a b c
  constructor
  · simp [get_storage_used, walkAux]
  · simp [get_storage_used, walkAux]

/-- Claim C6: when the enumeration raises after an error-free portion, the
scan returns the sum accumulated before the error (in megabytes) instead
of propagating the failure, and returns 0 when the error comes first. -/
theorem get_storage_used_error_partial :
    ∀ (pre post : List WalkEvent), WalkEvent.enumError ∉ pre →
      get_storage_used (pre ++ WalkEvent.enumError :: post) =
        (presentSum pre : ℚ) / (1024 * 1024) ∧
      get_storage_used (WalkEvent.enumError :: post) = 0 := by
  intro pre post h
  constructor
  · simp [get_storage_used, walkAux_append_error post pre 0 h]
  · simp [get_storage_used, walkAux]

/-- Claim C6 witness: a 5-byte file followed by an enumeration error yields
5/(1024*1024) megabytes; an immediate error yields 0. -/
theorem get_storage_used_error_partial_witness :
    get_storage_used [WalkEvent.file 5 true, WalkEvent.enumError] =
      (5 : ℚ) / (1024 * 1024) ∧
    get_storage_used [WalkEvent.enumError] = 0 := by
  have h := get_storage_used_error_partial [WalkEvent.file 5 true] [] (by decide)
  exact ⟨by simpa [presentSum] using h.1, h.2⟩

/-- Claim C4: with the runtime client unavailable at process start, the
inspection returns the same fixed status string for conductor, lair and
ui, and the result does not depend on the runtime at all (no call is
attempted). -/
theorem get_container_status_degraded :
    ∀ rt rt2 : DockerRuntime,
      get_container_status false rt =
        [("conductor", "docker unavailable"), ("lair", "docker unavailable"),
         ("ui", "docker unavailable")] ∧
      get_container_status false rt = get_container_status false rt2 :=
  fun _ _ => ⟨rfl, rfl⟩

/-- Claim C9: the dashboard's own /health handler returns the literal body
OK with status 200, whatever the current snapshot holds. -/
theorem health_always_ok : ∀ c : StatsCache, health c = ("OK", 200) :=
  fun _ => rfl

/-- Claim C10: on an HTTP 200 admin response, a body parsing to an empty
object leaves the peer count unchanged (Python truthiness makes the update
guard skip), while a non-empty object lacking the peers field sets it
to 0 (dict.get default). -/
theorem updatePeers_200_body_shape :
    ∀ (prev : Nat) (obj : JsonObj),
      updatePeers prev (get_conductor_stats (FetchOutcome.status 200 (some []))) = prev ∧
      (obj ≠ [] → obj.lookup "peers" = none →
        updatePeers prev (get_conductor_stats (FetchOutcome.status 200 (some obj))) = 0) := by
  intro prev obj
  refine ⟨rfl, ?_⟩
  intro hne hlook
  simp [updatePeers, get_conductor_stats, dictGet, hlook, List.isEmpty_iff, hne]

/-- Claim C10 witness: previous count 5 stays 5 on an empty-object body and
drops to 0 on a non-empty body without a peers field. -/
theorem updatePeers_200_body_shape_witness :
    updatePeers 5 (get_conductor_stats (FetchOutcome.status 200 (some []))) = 5 ∧
    updatePeers 5 (get_conductor_stats (FetchOutcome.status 200
      (some [("interfaces", 1)]))) = 0 := by
  have h := updatePeers_200_body_shape 5 [("interfaces", 1)]
  exact ⟨h.1, h.2 (by decide) (by decide)⟩

/-- Claim C7: uptime renders as days/hours/minutes with higher zero units
omitted and minutes always shown — the five quoted examples, plus the
three regimes: below one hour only minutes, below one day hours and
minutes, from one day on all three units. -/
theorem format_uptime_spec :
    format_uptime 0 = "0m" ∧ format_uptime 59 = "0m" ∧ format_uptime 60 = "1m" ∧
    format_uptime 3600 = "1h 0m" ∧ format_uptime 90061 = "1d 1h 1m" ∧
    (∀ s, s < 3600 → format_uptime s = toString (s / 60) ++ "m") ∧
    (∀ s, 3600 ≤ s → s < 86400 →
      format_uptime s = toString (s / 3600) ++ "h " ++
        toString ((s % 3600) / 60) ++ "m") ∧
    (∀ s, 86400 ≤ s →
      format_uptime s = toString (s / 86400) ++ "d " ++
        toString ((s % 86400) / 3600) ++ "h " ++
        toString ((s % 3600) / 60) ++ "m") := by
  refine ⟨by decide, by decide, by decide, by decide, by decide, ?_, ?_, ?_⟩
  · intro s hs
    have h1 : s / 86400 = 0 := Nat.div_eq_of_lt (by omega)
    have h2 : s % 86400 = s := Nat.mod_eq_of_lt (by omega)
    have h3 : s / 3600 = 0 := Nat.div_eq_of_lt hs
    have h4 : s % 3600 = s := Nat.mod_eq_of_lt hs
    simp [format_uptime, h1, h2, h3, h4]
  · intro s hlo hhi
    have h1 : s / 86400 = 0 := Nat.div_eq_of_lt hhi
    have h2 : s % 86400 = s := Nat.mod_eq_of_lt hhi
    have h3 : 0 < s / 3600 := Nat.div_pos hlo (by norm_num)
    simp [format_uptime, h1, h2, h3]
  · intro s hlo
    have h1 : 0 < s / 86400 := Nat.div_pos hlo (by norm_num)
    simp [format_uptime, h1]

/-- Claim C7 witness: two hours and one minute of uptime renders as the
hours/minutes form. -/
theorem format_uptime_spec_witness : format_uptime 7261 = "2h 1m" := by
  have h := format_uptime_spec.2.2.2.2.2.2.1 7261 (by omega) (by omega)
  rw [h]
  decide

/-- Claim C2 counterexample: a first attempt answering with status 500 is a
failure that is not an exception; the code then issues no second attempt
and reports offline, while the claim requires a second attempt whose
200 answer would make the node online. -/
theorem checkHealth_claim_refuted :
    ¬ (∀ a1 a2 : ProbeOutcome, a1 ≠ ProbeOutcome.status 200 →
        (checkHealth a1 a2).2 = true ∧
        ((checkHealth a1 a2).1 = true ↔
          (a2 = ProbeOutcome.status 200 ∨ a2 = ProbeOutcome.status 404))) := by
  intro h
  have hc := h (ProbeOutcome.status 500) (ProbeOutcome.status 200) (by decide)
  exact absurd hc.1 (by decide)

/-- Claim C2 (amended): online is true iff attempt 1 answers with status
200, or attempt 1 raises and attempt 2 answers 200 or 404; attempt 2 is
issued iff attempt 1 raises — a non-OK status on attempt 1 yields offline
with no fallback request. -/
theorem checkHealth_spec :
    ∀ a1 a2 : ProbeOutcome,
      ((checkHealth a1 a2).1 = true ↔
        (a1 = ProbeOutcome.status 200 ∨
          (a1 = ProbeOutcome.exn ∧
            (a2 = ProbeOutcome.status 200 ∨ a2 = ProbeOutcome.status 404)))) ∧
      ((checkHealth a1 a2).2 = true ↔ a1 = ProbeOutcome.exn) := by
  intro a1 a2
  cases a1 with
  | exn => cases a2 with
    | exn => simp [checkHealth]
    | status c => simp [checkHealth]
  | status c => simp [checkHealth]

/-- Claim C3 counterexample: with a previous count of 5, a 200 response
whose well-formed body is a non-empty object without a peers field resets
the count to 0 instead of keeping 5. -/
theorem updatePeers_missing_field_resets :
    updatePeers 5 (get_conductor_stats (FetchOutcome.status 200
      (some [("interfaces", 1)]))) = 0 ∧
    updatePeers 5 (get_conductor_stats (FetchOutcome.status 200
      (some [("interfaces", 1)]))) ≠ 5 := by
  decide

/-- Claim C3 (amended): the count is sticky on an exception, on any
non-200 status, on an unparsable body and on an empty-object body; a
non-empty body without a peers field resets it to 0; a body carrying a
peers value installs that value. -/
theorem updatePeers_sticky_spec :
    ∀ prev : Nat,
      updatePeers prev (get_conductor_stats FetchOutcome.exn) = prev ∧
      (∀ (code : Nat) (body : Option JsonObj), code ≠ 200 →
        updatePeers prev (get_conductor_stats (FetchOutcome.status code body)) = prev) ∧
      updatePeers prev (get_conductor_stats (FetchOutcome.status 200 none)) = prev ∧
      updatePeers prev (get_conductor_stats (FetchOutcome.status 200 (some []))) = prev ∧
      (∀ obj : JsonObj, obj ≠ [] → obj.lookup "peers" = none →
        updatePeers prev (get_conductor_stats (FetchOutcome.status 200 (some obj))) = 0) ∧
      (∀ (obj : JsonObj) (n : Nat), obj.lookup "peers" = some n →
        updatePeers prev (get_conductor_stats (FetchOutcome.status 200 (some obj))) = n) := by
  intro prev
  refine ⟨rfl, ?_, rfl, rfl, ?_, ?_⟩
  · intro code body hcode
    simp [get_conductor_stats, updatePeers, hcode]
  · intro obj hne hlook
    simp [updatePeers, get_conductor_stats, dictGet, hlook, List.isEmpty_iff, hne]
  · intro obj n hlook
    cases obj with
    | nil => simp at hlook
    | cons kv rest =>
      simp [updatePeers, get_conductor_stats, dictGet, hlook]

/-- Claim C3 witness: with previous count 5 — a 500 response keeps 5, a
non-empty body without the field resets to 0, and a body with peers 7
installs 7. -/
theorem updatePeers_sticky_spec_witness :
    updatePeers 5 (get_conductor_stats (FetchOutcome.status 500 none)) = 5 ∧
    updatePeers 5 (get_conductor_stats (FetchOutcome.status 200
      (some [("x", 2)]))) = 0 ∧
    updatePeers 5 (get_conductor_stats (FetchOutcome.status 200
      (some [("peers", 7)]))) = 7 := by
  have h := updatePeers_sticky_spec 5
  exact ⟨h.2.1 500 none (by decide),
    h.2.2.2.2.1 [("x", 2)] (by decide) (by decide),
    h.2.2.2.2.2 [("peers", 7)] 7 (by decide)⟩

/-- Helper: one update_stats iteration never writes vouches_processed. -/
theorem update_stats_cycle_vouches (inp : CycleInput) (c : StatsCache) :
    (update_stats_cycle inp c).vouches_processed = c.vouches_processed := rfl

/-- Claim C8: every cache state the process can publish — the initial one
and the result of any number of update cycles — carries
vouches_processed = 0, and so does the /api/status document built from
it: the counter is initialized to zero and never written. -/
theorem vouches_processed_always_zero :
    ∀ (start : Nat) (nid : String) (c : StatsCache), Reachable start c →
      c.vouches_processed = 0 ∧ (api_status nid c).vouches_processed = 0 := by
  intro start nid c h
  have hz : c.vouches_processed = 0 := by
    induction h with
    | init => rfl
    | step inp hr ih => rw [update_stats_cycle_vouches]; exact ih
  exact ⟨hz, hz⟩

/-- Claim C8 witness: the initial cache and its /api/status document both
report a zero vouch counter. -/
theorem vouches_processed_always_zero_witness :
    (stats_cache_init 0).vouches_processed = 0 ∧
    (api_status "unknown" (stats_cache_init 0)).vouches_processed = 0 :=
  vouches_processed_always_zero 0 "unknown" _ Reachable.init

/-- A concrete cycle input for exercising the write sequence: a healthy
first probe, an empty data root, no container runtime, a failed admin
fetch, and cycle timestamp 123. -/
def cexInput : CycleInput :=
  { attempt1 := ProbeOutcome.status 200
    attempt2 := ProbeOutcome.exn
    now := 50
    walkEvents := []
    dockerAvailable := false
    runtime := { fromEnvOk := false, query := fun _ => ContainerQuery.queryErr }
    conductorFetch := FetchOutcome.exn
    timestamp := 123 }

/-- Claim C1 counterexample: running one cycle from the initial cache, not
every intermediate state of the write sequence equals the previous or the
new snapshot — after the online write but before the last_update write, a
reader sees the new online next to the old last_update, so the cache is
not replaced by a single atomic wholesale swap. -/
theorem update_stats_not_atomic :
    ¬ (∀ s ∈ update_stats_trace cexInput (stats_cache_init 0),
        s = stats_cache_init 0 ∨
        s = update_stats_cycle cexInput (stats_cache_init 0)) := by
  intro h
  have h1 := h ((update_stats_trace cexInput (stats_cache_init 0)).headD
    (stats_cache_init 0)) (by simp [update_stats_trace])
  cases h1 with
  | inl heq =>
    have : ((update_stats_trace cexInput (stats_cache_init 0)).headD
        (stats_cache_init 0)).online = (stats_cache_init 0).online :=
      congrArg StatsCache.online heq
    simp [update_stats_trace, stats_cache_init, checkHealth, cexInput] at this
  | inr heq =>
    have : ((update_stats_trace cexInput (stats_cache_init 0)).headD
        (stats_cache_init 0)).last_update =
        (update_stats_cycle cexInput (stats_cache_init 0)).last_update :=
      congrArg StatsCache.last_update heq
    simp [update_stats_trace, update_stats_cycle, stats_cache_init, cexInput] at this

/-- Claim C1 (amended): each cycle publishes by a sequence of per-field
in-place writes, not one wholesale replacement: the final state carries
all of the cycle's results, but whenever the cycle changes online and
stamps a fresh last_update, the first intermediate state of the sequence
is a torn mix — distinct from both the previous and the new snapshot. -/
theorem update_stats_writes_field_by_field :
    ∀ (inp : CycleInput) (s0 : StatsCache),
      (update_stats_cycle inp s0).online = (checkHealth inp.attempt1 inp.attempt2).1 ∧
      (update_stats_cycle inp s0).uptime = inp.now - s0.start_time ∧
      (update_stats_cycle inp s0).storage_used_mb = get_storage_used inp.walkEvents ∧
      (update_stats_cycle inp s0).containers =
        get_container_status inp.dockerAvailable inp.runtime ∧
      (update_stats_cycle inp s0).peers_connected =
        updatePeers s0.peers_connected (get_conductor_stats inp.conductorFetch) ∧
      (update_stats_cycle inp s0).last_update = some inp.timestamp ∧
      ((checkHealth inp.attempt1 inp.attempt2).1 ≠ s0.online →
        some inp.timestamp ≠ s0.last_update →
        ((update_stats_trace inp s0).headD s0 ∈ update_stats_trace inp s0 ∧
         (update_stats_trace inp s0).headD s0 ≠ s0 ∧
         (update_stats_trace inp s0).headD s0 ≠ update_stats_cycle inp s0)) := by
  intro inp s0
  refine ⟨rfl, rfl, rfl, rfl, rfl, rfl, ?_⟩
  intro honline hts
  refine ⟨by simp [update_stats_trace], ?_, ?_⟩
  · intro heq
    exact honline (congrArg StatsCache.online heq)
  · intro heq
    exact hts (congrArg StatsCache.last_update heq).symm

/-- Claim C1 amended-claim witness: on the concrete input the first
intermediate state differs from both the previous and the new snapshot. -/
theorem update_stats_writes_field_by_field_witness :
    (update_stats_trace cexInput (stats_cache_init 0)).headD (stats_cache_init 0) ≠
      stats_cache_init 0 ∧
    (update_stats_trace cexInput (stats_cache_init 0)).headD (stats_cache_init 0) ≠
      update_stats_cycle cexInput (stats_cache_init 0) := by
  have h := (update_stats_writes_field_by_field cexInput
    (stats_cache_init 0)).2.2.2.2.2.2 (by decide) (by decide)
  exact ⟨h.2.1, h.2.2⟩

end OurBlock
